import Mathlib

/-!
Verification development for the Instagram scraping scripts
(`main.py`, `accounts_main.py`, `media_main.py`, `separate/*.py`).

The Python sources are shallowly embedded below: the external client
libraries (instagrapi, instaloader) are opaque capability providers, so
their behaviour is passed in as explicit data (fetch outcomes, login
outcomes, backend-supplied field values); the scripts' own control flow,
data shaping and persistence logic are translated function by function.
-/

namespace IGScrape

/-! ## Result persistence model

`accounts_main.py` / `media_main.py` write results via
`save_results_atomic(results_list, out_file)` (accounts_main.py:235-245,
media_main.py:298-303): the whole in-memory list is dumped to a fresh
temp file in the output directory and then `Path.replace`d onto the
canonical output path.  `main.py` instead opens the canonical path
directly and dumps once, after the loop (main.py:282-288).

We model the filesystem operations each script issues against the output
directory.  `writeTemp` writes a fresh temp file (does not touch the
canonical path); `replaceTemp` atomically renames the last-written temp
file onto the canonical path (`Path.replace` semantics); `writeDirect`
opens the canonical path for writing and writes it whole (main.py's
non-atomic final dump). -/

inductive FsOp (α : Type) where
  | writeTemp (content : List α)
  | replaceTemp
  | writeDirect (content : List α)
  deriving DecidableEq, Repr

/-- Filesystem state of the output directory: the parsed content of the
canonical output file (`none` = file absent) and of the pending temp
file, if any. -/
structure FsState (α : Type) where
  canonical : Option (List α)
  temp : Option (List α)
  deriving DecidableEq, Repr

/-- Effect of one filesystem operation.  `replaceTemp` is the atomic
rename: the canonical path ends up with exactly the temp file's complete
content; a temp write never changes the canonical path. -/
def applyFsOp {α : Type} : FsOp α → FsState α → FsState α
  | .writeTemp c, s => { s with temp := some c }
  | .replaceTemp, s => { canonical := s.temp, temp := none }
  | .writeDirect c, s => { s with canonical := some c }

/-- All filesystem states observable while a list of operations runs
(initial state included): a process kill between any two operations
leaves the directory in one of these states. -/
def fsStates {α : Type} : List (FsOp α) → FsState α → List (FsState α)
  | [], s => [s]
  | op :: ops, s => s :: fsStates ops (applyFsOp op s)

/-- The successive complete contents installed at the canonical path, in
order (one entry per `replaceTemp` or `writeDirect`).  The `Option`
argument tracks the pending temp-file content. -/
def installedContents {α : Type} : List (FsOp α) → Option (List α) → List (List α)
  | [], _ => []
  | .writeTemp c :: rest, _ => installedContents rest (some c)
  | .replaceTemp :: rest, t => t.getD [] :: installedContents rest none
  | .writeDirect c :: rest, t => c :: installedContents rest t

/-! ## Orchestrator loop

Both `accounts_main.main` (accounts_main.py:279-300) and
`media_main.main` (media_main.py:378-419) run the same loop shape over
the parsed requests: delay, pick a library at random, `try` the fetch,
`except Exception: print(...); continue`, append the fetched dict to
`all_results`, `save_results_atomic(all_results, out)`, delay.  The
external fetch is opaque, so it enters the model as
`fetch : ι → Except ε α` giving each request's outcome. -/

/-- The in-memory `all_results` list after the loop runs over `items`
starting from accumulator `acc`: successful fetches are appended in
order, failed ones are skipped by `continue`. -/
def scrapeLoopResults {ι ε α : Type} (fetch : ι → Except ε α) :
    List ι → List α → List α
  | [], acc => acc
  | i :: rest, acc =>
    match fetch i with
    | .error _ => scrapeLoopResults fetch rest acc
    | .ok d => scrapeLoopResults fetch rest (acc ++ [d])

/-- The filesystem operations issued by the accounts_main/media_main
loop: after every successful fetch, `save_results_atomic` writes the
whole current list to a temp file and renames it onto the canonical
path; a failed fetch issues nothing (`continue` precedes the save). -/
def scrapeLoopOps {ι ε α : Type} (fetch : ι → Except ε α) :
    List ι → List α → List (FsOp α)
  | [], _ => []
  | i :: rest, acc =>
    match fetch i with
    | .error _ => scrapeLoopOps fetch rest acc
    | .ok d =>
        .writeTemp (acc ++ [d]) :: .replaceTemp :: scrapeLoopOps fetch rest (acc ++ [d])

/-- `main.py`'s persistence (main.py:282-288): nothing is written during
the loop; after the loop the canonical file is opened and the full
result list dumped once, directly. -/
def mainPyOps {ι ε α : Type} (fetch : ι → Except ε α) (items : List ι) : List (FsOp α) :=
  [.writeDirect (scrapeLoopResults fetch items [])]

/-- The requests whose fetch succeeds, in input order. -/
def successList {ι ε α : Type} (fetch : ι → Except ε α) (items : List ι) : List α :=
  items.filterMap (fun i => (fetch i).toOption)

theorem scrapeLoopResults_eq {ι ε α : Type} (fetch : ι → Except ε α) :
    ∀ (items : List ι) (acc : List α),
      scrapeLoopResults fetch items acc = acc ++ successList fetch items := by
  intro items
  induction items with
  | nil => intro acc; simp [scrapeLoopResults, successList]
  | cons i rest ih =>
    intro acc
    cases h : fetch i with
    | error e =>
        simp [scrapeLoopResults, successList, h, ih acc, List.filterMap_cons,
          Except.toOption]
    | ok d =>
        simp [scrapeLoopResults, successList, h, ih (acc ++ [d]), List.filterMap_cons,
          Except.toOption]

/-- The sequence of growing prefixes `acc ++ take 1 xs, acc ++ take 2 xs, …`. -/
def growingPrefixes {α : Type} (acc : List α) : List α → List (List α)
  | [] => []
  | d :: ds => (acc ++ [d]) :: growingPrefixes (acc ++ [d]) ds

theorem installedContents_scrapeLoopOps {ι ε α : Type} (fetch : ι → Except ε α) :
    ∀ (items : List ι) (acc : List α) (t : Option (List α)),
      installedContents (scrapeLoopOps fetch items acc) t =
        growingPrefixes acc (successList fetch items) := by
  intro items
  induction items with
  | nil => intro acc t; simp [scrapeLoopOps, installedContents, successList, growingPrefixes]
  | cons i rest ih =>
    intro acc t
    cases h : fetch i with
    | error e =>
        simp [scrapeLoopOps, h, successList, List.filterMap_cons, Except.toOption, ih]
    | ok d =>
        simp [scrapeLoopOps, h, installedContents, successList, List.filterMap_cons,
          Except.toOption, growingPrefixes, ih]

theorem growingPrefixes_length {α : Type} :
    ∀ (xs acc : List α), (growingPrefixes acc xs).length = xs.length := by
  intro xs
  induction xs with
  | nil => intro acc; simp [growingPrefixes]
  | cons d ds ih => intro acc; simp [growingPrefixes, ih]

theorem growingPrefixes_get {α : Type} :
    ∀ (xs acc : List α) (n : Nat) (h : n < (growingPrefixes acc xs).length),
      (growingPrefixes acc xs).get ⟨n, h⟩ = acc ++ xs.take (n + 1) := by
  intro xs
  induction xs with
  | nil => intro acc n h; simp [growingPrefixes] at h
  | cons d ds ih =>
    intro acc n h
    cases n with
    | zero => simp [growingPrefixes]
    | succ m =>
        have h' : m < (growingPrefixes (acc ++ [d]) ds).length := by
          simpa [growingPrefixes] using h
        calc (growingPrefixes acc (d :: ds)).get ⟨m + 1, h⟩
            = (growingPrefixes (acc ++ [d]) ds).get ⟨m, h'⟩ := by
              simp [growingPrefixes]
          _ = (acc ++ [d]) ++ ds.take (m + 1) := ih (acc ++ [d]) m h'
          _ = acc ++ (d :: ds).take (m + 1 + 1) := by simp [List.take_cons]

theorem take_append_of_le {α : Type} :
    ∀ (acc tail : List α) (k : Nat), k ≤ acc.length → (acc ++ tail).take k = acc.take k := by
  intro acc
  induction acc with
  | nil =>
    intro tail k hk
    simp at hk
    simp [hk]
  | cons a as ih =>
    intro tail k hk
    cases k with
    | zero => simp
    | succ m =>
        have hm : m ≤ as.length := by simpa using hk
        simp [List.take_succ_cons, ih tail m hm]

/-- Trace invariant for the accounts_main/media_main loop: starting from
a filesystem state whose canonical file is absent or a complete prefix
of the accumulated results, every observable state during the loop has
the canonical file absent or equal to a complete prefix of the final
result list. -/
theorem scrapeLoop_canonical_invariant {ι ε α : Type} (fetch : ι → Except ε α) :
    ∀ (items : List ι) (acc : List α) (s : FsState α),
      (s.canonical = none ∨ ∃ k, k ≤ acc.length ∧ s.canonical = some (acc.take k)) →
      ∀ st ∈ fsStates (scrapeLoopOps fetch items acc) s,
        st.canonical = none ∨
          ∃ k, k ≤ (scrapeLoopResults fetch items acc).length ∧
            st.canonical = some ((scrapeLoopResults fetch items acc).take k) := by
  intro items
  induction items with
  | nil =>
    intro acc s hs st hst
    simp [scrapeLoopOps, fsStates] at hst
    subst hst
    simpa [scrapeLoopResults] using hs
  | cons i rest ih =>
    intro acc s hs st hst
    have hres : scrapeLoopResults fetch (i :: rest) acc =
        acc ++ successList fetch (i :: rest) := scrapeLoopResults_eq fetch _ acc
    cases h : fetch i with
    | error e =>
        rw [show scrapeLoopOps fetch (i :: rest) acc = scrapeLoopOps fetch rest acc by
          simp [scrapeLoopOps, h]] at hst
        rw [show scrapeLoopResults fetch (i :: rest) acc = scrapeLoopResults fetch rest acc by
          simp [scrapeLoopResults, h]]
        exact ih acc s hs st hst
    | ok d =>
        have hops : scrapeLoopOps fetch (i :: rest) acc =
            .writeTemp (acc ++ [d]) :: .replaceTemp :: scrapeLoopOps fetch rest (acc ++ [d]) := by
          simp [scrapeLoopOps, h]
        have hres2 : scrapeLoopResults fetch (i :: rest) acc =
            scrapeLoopResults fetch rest (acc ++ [d]) := by
          simp [scrapeLoopResults, h]
        rw [hops] at hst
        rw [hres2]
        have hfinal : scrapeLoopResults fetch rest (acc ++ [d]) =
            (acc ++ [d]) ++ successList fetch rest := scrapeLoopResults_eq fetch rest _
        simp [fsStates, applyFsOp] at hst
        rcases hst with hst | hst | hst
        · subst hst
          rcases hs with hnone | ⟨k, hk, hc⟩
          · exact Or.inl hnone
          · refine Or.inr ⟨k, ?_, ?_⟩
            · rw [hfinal]
              simp only [List.length_append]
              omega
            · rw [hfinal, List.append_assoc,
                take_append_of_le acc ([d] ++ successList fetch rest) k hk]
              exact hc
        · subst hst
          rcases hs with hnone | ⟨k, hk, hc⟩
          · exact Or.inl hnone
          · refine Or.inr ⟨k, ?_, ?_⟩
            · rw [hfinal]
              simp only [List.length_append]
              omega
            · rw [hfinal, List.append_assoc,
                take_append_of_le acc ([d] ++ successList fetch rest) k hk]
              exact hc
        · refine ih (acc ++ [d]) ⟨some (acc ++ [d]), none⟩ ?_ st hst
          exact Or.inr ⟨(acc ++ [d]).length, le_refl _, by simp⟩

/-- C1 (amended, accounts_main/media_main loop): after every successful
fetch the whole result list is written to a temp file and atomically
installed at the canonical path, so the number of checkpoints equals the
number of processed results, the n-th checkpoint content is exactly the
first n+1 results in append order, and every filesystem state observable
during the run has the canonical file either absent or equal to a
complete prefix of the results — never a partially written file. -/
theorem c1_per_item_atomic_checkpointing {ι ε α : Type} (fetch : ι → Except ε α)
    (items : List ι) :
    ((installedContents (scrapeLoopOps fetch items []) none).length =
        (scrapeLoopResults fetch items []).length) ∧
    (∀ (n : Nat) (h : n < (installedContents (scrapeLoopOps fetch items []) none).length),
        (installedContents (scrapeLoopOps fetch items []) none).get ⟨n, h⟩ =
          (scrapeLoopResults fetch items []).take (n + 1)) ∧
    (∀ st ∈ fsStates (scrapeLoopOps fetch items []) ⟨none, none⟩,
        st.canonical = none ∨
          ∃ k, st.canonical = some ((scrapeLoopResults fetch items []).take k)) := by
  have hinst := installedContents_scrapeLoopOps fetch items [] none
  have hres := scrapeLoopResults_eq fetch items []
  refine ⟨?_, ?_, ?_⟩
  · rw [hinst, hres, growingPrefixes_length]
    simp
  · intro n h
    rw [List.get_of_eq hinst ⟨n, h⟩]
    have hg := growingPrefixes_get (successList fetch items) [] n (hinst ▸ h)
    rw [hres]
    simpa using hg
  · intro st hst
    have := scrapeLoop_canonical_invariant fetch items [] ⟨none, none⟩ (Or.inl rfl) st hst
    rcases this with hnone | ⟨k, _, hc⟩
    · exact Or.inl hnone
    · exact Or.inr ⟨k, hc⟩

/-- C1: the claim fails for `main.py`, which is one of the runs it
quantifies over.  At a concrete input with two successfully processed
requests, `main.py` performs a single write — after the loop, directly
onto the canonical path — instead of one atomic temp-and-rename
checkpoint after each of the two processed requests. -/
theorem c1_counterexample :
    (successList (fun _ : String => (Except.ok 0 : Except Unit Nat)) ["a", "b"]).length = 2 ∧
    (installedContents
        (mainPyOps (fun _ : String => (Except.ok 0 : Except Unit Nat)) ["a", "b"]) none).length
      = 1 ∧
    mainPyOps (fun _ : String => (Except.ok 0 : Except Unit Nat)) ["a", "b"] =
      [FsOp.writeDirect [0, 0]] :=
  ⟨rfl, rfl, rfl⟩

/-- C1 witness: at a concrete run of the checkpoint-per-item loop, the
first checkpoint's durable content is exactly the first result. -/
theorem c1_per_item_atomic_checkpointing_witness :
    0 < (installedContents
          (scrapeLoopOps (fun n : Nat => (Except.ok n : Except Unit Nat)) [5, 6] []) none).length
    ∧ (installedContents
          (scrapeLoopOps (fun n : Nat => (Except.ok n : Except Unit Nat)) [5, 6] []) none).get
        ⟨0, by decide⟩ = [5] := by
  refine ⟨by decide, ?_⟩
  exact (c1_per_item_atomic_checkpointing
    (fun n : Nat => (Except.ok n : Except Unit Nat)) [5, 6]).2.1 0 (by decide)

/-- C2 (amended): in the orchestrator loop of accounts_main/media_main a
successful fetch appends its result and triggers one checkpoint, and an
adapter-reported error is non-fatal (the loop continues, later requests
are still processed); but a failed request produces no result at all —
it is omitted from the output rather than recorded with an error
descriptor, and no checkpoint is triggered for it. -/
theorem c2_error_items_skipped {ι ε α : Type} (fetch : ι → Except ε α) (items : List ι) :
    scrapeLoopResults fetch items [] = items.filterMap (fun i => (fetch i).toOption) ∧
    (installedContents (scrapeLoopOps fetch items []) none).length =
      (items.filterMap (fun i => (fetch i).toOption)).length := by
  constructor
  · simpa [successList] using scrapeLoopResults_eq fetch items []
  · rw [installedContents_scrapeLoopOps fetch items [] none, growingPrefixes_length]
    rfl

/-- C2: the claim fails at a concrete input: a single request whose
fetch reports an error yields an empty result list (no `ScrapeResult`
with `error` populated is appended) and no checkpoint write. -/
theorem c2_counterexample :
    scrapeLoopResults (fun _ : String => (Except.error () : Except Unit Nat)) ["alice"] [] = []
    ∧ scrapeLoopOps (fun _ : String => (Except.error () : Except Unit Nat)) ["alice"] [] = [] :=
  ⟨rfl, rfl⟩

/-! ## Session initialization

`init_instagrapi_session` (accounts_main.py:57-90, identical in
main.py:56-89 and media_main.py:62-98): if the session file exists, the
script runs `cl.load_settings(path)` followed by the probe
`cl.get_timeline_feed()` inside one `try`, with `except LoginRequired:
pass` and `except Exception: print(warning)` — both handlers leave the
client untouched.  Fresh login runs only under `if not cl.user_id`; the
instagrapi client's `user_id` is restored from the loaded settings'
authorization data, so it is set exactly when `load_settings`
succeeded on a session blob carrying a user id.  `cl.login` may raise
`TwoFactorRequired` (caught: the script prompts for a code and retries
`cl.login(..., verification_code=code)`); any other login exception
propagates out of `main` uncaught.

`init_instaloader_session` (accounts_main.py:145-179, media_main.py:
186-215): loads the session file if present (`except Exception:
print`), then logs in under `if not L.test_login()`, handling
`TwoFactorAuthRequiredException` by prompting and calling
`two_factor_login(code)`; other login exceptions propagate uncaught.

The external clients are opaque, so their behaviour for one init call
enters as explicit world data. -/

/-- Outcome of the plain `cl.login(IG_USERNAME, IG_PASSWORD)` call. -/
inductive IGLoginOutcome where
  | ok (uid : Nat)
  | twoFactorRequired
  | raiseOther
  deriving DecidableEq

/-- External behaviour visible to one `init_instagrapi_session` call.
`loadSettingsResult = .ok uid` means `load_settings` succeeds and the
client's `user_id` becomes `uid` (restored from the blob); `.error`
means it raises (caught by the script).  `probeOk` records whether the
`get_timeline_feed` probe succeeds; both of its exception handlers do
nothing, so the probe outcome cannot influence the client state. -/
structure IGWorld where
  sessionExists : Bool
  loadSettingsResult : Except Unit (Option Nat)
  probeOk : Bool
  loginFirst : IGLoginOutcome
  loginWith2FA : Except Unit Nat

/-- The client's `user_id` right after the session-restoration block. -/
def igLoadedUid (w : IGWorld) : Option Nat :=
  if w.sessionExists then
    match w.loadSettingsResult with
    | .ok uid => uid
    | .error _ => none
  else none

/-- Result of `init_instagrapi_session`: whether the fresh-login branch
ran, and either the resulting client user id or an uncaught login
exception (fatal, since `main` wraps no `try` around the init call). -/
structure IGInit where
  loginAttempted : Bool
  outcome : Except Unit (Option Nat)

/-- `init_instagrapi_session` (accounts_main.py:57-90). -/
def init_instagrapi_session (w : IGWorld) : IGInit :=
  let uid0 := igLoadedUid w
  if uid0.isSome then ⟨false, .ok uid0⟩
  else
    match w.loginFirst with
    | .ok uid => ⟨true, .ok (some uid)⟩
    | .raiseOther => ⟨true, .error ()⟩
    | .twoFactorRequired =>
        match w.loginWith2FA with
        | .ok uid => ⟨true, .ok (some uid)⟩
        | .error _ => ⟨true, .error ()⟩

/-- Outcome of the plain `L.login(IG_USERNAME, IG_PASSWORD)` call. -/
inductive ILLoginOutcome where
  | ok
  | twoFactorRequired
  | raiseOther
  deriving DecidableEq

/-- External behaviour visible to one `init_instaloader_session` call:
whether the session file exists, whether `load_session_from_file`
succeeds (else its exception is caught), whether `L.test_login()`
reports the loaded session valid, and the login outcomes. -/
structure ILWorld where
  sessionExists : Bool
  loadOk : Bool
  loadedValid : Bool
  loginFirst : ILLoginOutcome
  twoFactorResult : Except Unit Unit

/-- `L.test_login()` at the `if not L.test_login()` check: truthy only
when a session was actually loaded and the backend reports it valid
(a fresh instance, or one whose load failed, is not logged in). -/
def il_test_login (w : ILWorld) : Bool :=
  w.sessionExists && w.loadOk && w.loadedValid

/-- Result of `init_instaloader_session`: whether the login branch ran,
and success or an uncaught login exception. -/
structure ILInit where
  loginAttempted : Bool
  outcome : Except Unit Unit

/-- `init_instaloader_session` (accounts_main.py:145-179). -/
def init_instaloader_session (w : ILWorld) : ILInit :=
  if il_test_login w then ⟨false, .ok ()⟩
  else
    match w.loginFirst with
    | .ok => ⟨true, .ok ()⟩
    | .raiseOther => ⟨true, .error ()⟩
    | .twoFactorRequired => ⟨true, w.twoFactorResult⟩

/-! ## Top-level run of accounts_main.main (lines 248-303)

After CSV parsing (modeled as the given request list), `main` calls
`init_instagrapi_session` and `init_instaloader_session` with no
enclosing `try`: an uncaught authentication exception from either init
terminates the process before any request is processed.  The per-item
library choice is `random.choice(["instagrapi", "instaloader"])`; the
random draws enter the model paired with each request. -/

inductive LibPick where
  | instagrapi
  | instaloader
  deriving DecidableEq

/-- The loop body's backend dispatch on the random pick
(accounts_main.py:282-289). -/
def dispatchFetch {ε α : Type} (igFetch ilFetch : String → Except ε α) :
    String × LibPick → Except ε α
  | (u, .instagrapi) => igFetch u
  | (u, .instaloader) => ilFetch u

/-- How a run can terminate fatally during initialization. -/
inductive RunExit where
  | igAuthFailure
  | ilAuthFailure
  deriving DecidableEq

/-- `accounts_main.main` from session initialization onward: both init
calls run unguarded, then the scrape loop processes every request. -/
def accountsMainRun {ε α : Type} (igw : IGWorld) (ilw : ILWorld)
    (igFetch ilFetch : String → Except ε α) (items : List (String × LibPick)) :
    Except RunExit (List α × List (FsOp α)) :=
  match (init_instagrapi_session igw).outcome with
  | .error _ => .error .igAuthFailure
  | .ok _ =>
    match (init_instaloader_session ilw).outcome with
    | .error _ => .error .ilAuthFailure
    | .ok _ =>
        .ok (scrapeLoopResults (dispatchFetch igFetch ilFetch) items [],
             scrapeLoopOps (dispatchFetch igFetch ilFetch) items [])

/-- A world in which the instagrapi login fails at startup (no cached
session, login raises a non-2FA exception). -/
def igWorldAuthFail : IGWorld :=
  { sessionExists := false, loadSettingsResult := .error (), probeOk := true,
    loginFirst := .raiseOther, loginWith2FA := .error () }

/-- A world in which the instaloader login succeeds at startup. -/
def ilWorldAuthOk : ILWorld :=
  { sessionExists := false, loadOk := false, loadedValid := false,
    loginFirst := .ok, twoFactorResult := .ok () }

/-- C3: the claim fails at a concrete input: the instagrapi backend's
authentication fails at startup while the instaloader backend's
succeeds, yet the run terminates fatally before processing the single
queued request — there is no rerouting to the surviving backend and no
per-item results are produced. -/
theorem c3_counterexample :
    (init_instaloader_session ilWorldAuthOk).outcome = .ok () ∧
    accountsMainRun igWorldAuthFail ilWorldAuthOk
      (fun _ => (Except.ok 0 : Except Unit Nat)) (fun _ => .ok 0)
      [("alice", .instaloader)] = .error .igAuthFailure :=
  ⟨rfl, rfl⟩

/-- C3 (amended): an authentication failure of either single backend at
startup terminates the run fatally before any request is processed
(there is no failover routing to the surviving backend); only when both
backends authenticate does processing occur, and then every request is
routed by its own random draw over both libraries, its success
appearing in the output in order. -/
theorem c3_single_auth_failure_fatal {ε α : Type} (igw : IGWorld) (ilw : ILWorld)
    (igFetch ilFetch : String → Except ε α) (items : List (String × LibPick)) :
    ((init_instagrapi_session igw).outcome = .error () →
        accountsMainRun igw ilw igFetch ilFetch items = .error .igAuthFailure) ∧
    (∀ uid, (init_instagrapi_session igw).outcome = .ok uid →
        (init_instaloader_session ilw).outcome = .error () →
        accountsMainRun igw ilw igFetch ilFetch items = .error .ilAuthFailure) ∧
    (∀ uid, (init_instagrapi_session igw).outcome = .ok uid →
        (init_instaloader_session ilw).outcome = .ok () →
        accountsMainRun igw ilw igFetch ilFetch items =
          .ok (items.filterMap (fun it => (dispatchFetch igFetch ilFetch it).toOption),
               scrapeLoopOps (dispatchFetch igFetch ilFetch) items [])) := by
  refine ⟨?_, ?_, ?_⟩
  · intro h
    simp [accountsMainRun, h]
  · intro uid hig hil
    simp [accountsMainRun, hig, hil]
  · intro uid hig hil
    simp [accountsMainRun, hig, hil]
    exact (c2_error_items_skipped (dispatchFetch igFetch ilFetch) items).1.symm ▸ rfl

/-- C3 witness: the amended behaviour at concrete worlds. -/
theorem c3_single_auth_failure_fatal_witness :
    (init_instagrapi_session igWorldAuthFail).outcome = .error () ∧
    accountsMainRun igWorldAuthFail ilWorldAuthOk
      (fun _ => (Except.ok 0 : Except Unit Nat)) (fun _ => .ok 0)
      [("bob", .instagrapi)] = .error .igAuthFailure := by
  refine ⟨rfl, ?_⟩
  exact (c3_single_auth_failure_fatal igWorldAuthFail ilWorldAuthOk
    (fun _ => (Except.ok 0 : Except Unit Nat)) (fun _ => .ok 0)
    [("bob", .instagrapi)]).1 rfl

/-- A world in which a cached instagrapi session loads (carrying a user
id) but the `get_timeline_feed` validity probe fails. -/
def igWorldStaleSession : IGWorld :=
  { sessionExists := true, loadSettingsResult := .ok (some 42), probeOk := false,
    loginFirst := .ok 7, loginWith2FA := .ok 7 }

/-- C6: the claim fails at a concrete input: the cached instagrapi
session loads and sets a user id, the validity probe fails, and yet no
fresh login is attempted (`loginAttempted = false`) — the adapter is
left running on the invalid session instead of falling back to login. -/
theorem c6_counterexample :
    igWorldStaleSession.probeOk = false ∧
    init_instagrapi_session igWorldStaleSession = ⟨false, .ok (some 42)⟩ :=
  ⟨rfl, rfl⟩

/-- C6 (amended): both adapters attempt session restoration first and a
session-load failure is never fatal by itself.  For instaloader the
`test_login` probe exactly gates the fresh login: a valid restored
session skips login, and an absent, unreadable, or invalid session
always leads to a login attempt.  For instagrapi the fresh login is
gated only by whether the loaded settings yield a user id: absent or
unreadable session files always lead to a login attempt, but a loaded
session that fails the `get_timeline_feed` probe does not trigger
re-login. -/
theorem c6_login_fallback_gate (igw : IGWorld) (ilw : ILWorld) :
    (il_test_login ilw = true → init_instaloader_session ilw = ⟨false, .ok ()⟩) ∧
    (il_test_login ilw = false → (init_instaloader_session ilw).loginAttempted = true) ∧
    (igLoadedUid igw ≠ none →
        init_instagrapi_session igw = ⟨false, .ok (igLoadedUid igw)⟩) ∧
    (igLoadedUid igw = none → (init_instagrapi_session igw).loginAttempted = true) := by
  refine ⟨?_, ?_, ?_, ?_⟩
  · intro h
    simp [init_instaloader_session, h]
  · intro h
    cases hl : ilw.loginFirst <;> simp [init_instaloader_session, h, hl]
  · intro h
    have hs : (igLoadedUid igw).isSome := Option.isSome_iff_ne_none.mpr h
    simp [init_instagrapi_session, hs]
  · intro h
    cases hl : igw.loginFirst <;>
      cases h2 : igw.loginWith2FA <;>
        simp [init_instagrapi_session, h, hl, h2]

/-- C6 witness: the amended behaviour at concrete worlds — a valid
restored instaloader session skips login, and an instagrapi session
file that fails to load leads to a fresh login attempt. -/
theorem c6_login_fallback_gate_witness :
    (il_test_login
        { sessionExists := true, loadOk := true, loadedValid := true,
          loginFirst := .ok, twoFactorResult := .ok () } = true) ∧
    (init_instaloader_session
        { sessionExists := true, loadOk := true, loadedValid := true,
          loginFirst := .ok, twoFactorResult := .ok () } = ⟨false, .ok ()⟩) ∧
    (init_instagrapi_session igWorldAuthFail).loginAttempted = true := by
  refine ⟨rfl, ?_, ?_⟩
  · exact (c6_login_fallback_gate igWorldAuthFail
      { sessionExists := true, loadOk := true, loadedValid := true,
        loginFirst := .ok, twoFactorResult := .ok () }).1 rfl
  · exact (c6_login_fallback_gate igWorldAuthFail ilWorldAuthOk).2.2.2 rfl

/-! ## Post fetching and field normalization

Backend objects are opaque; their attribute values enter as explicit
record fields.  An instaloader `Post`'s `date_local` is modeled by the
ISO-8601 string `isoformat()` renders it to (`none` = the attribute is
falsy, so the script stores `None`); likewise `taken_at` for an
instagrapi media.  `video_view_count` is the value the backend's
attribute yields through `getattr(_, "video_view_count", None)`. -/

/-- An instaloader `Post` as the fetchers read it. -/
structure ILPost where
  mediaid : Nat
  shortcode : String
  caption : Option String
  date_local : Option String
  is_video : Bool
  video_view_count : Option Int
  likes : Int
  comments : Int
  deriving DecidableEq

/-- An instaloader `Profile` (with `get_posts()` as the most-recent-first
post stream it yields). -/
structure ILProfile where
  username : String
  full_name : String
  biography : String
  profile_pic_url : String
  followers : Int
  followees : Int
  posts : List ILPost
  deriving DecidableEq

/-- An instagrapi media object as the fetchers read it
(`media_type == 2` means video). -/
structure IGMedia where
  pk : Nat
  code : String
  caption_text : String
  taken_at : Option String
  media_type : Nat
  video_view_count : Option Int
  like_count : Int
  comment_count : Int
  deriving DecidableEq

/-- A post entry dict as built by `media_main.py`'s fetchers
(id/shortcode/description/date/view/like/comment). -/
structure MediaPostEntry where
  id : Nat
  shortcode : String
  description : Option String
  date_of_publication : Option String
  view_count : Option Int
  like_count : Int
  comment_count : Int
  deriving DecidableEq

/-- A post entry dict as built by `accounts_main.py` / `main.py`
(no id/shortcode fields). -/
structure AccountsPostEntry where
  description : Option String
  date_of_publication : Option String
  view_count : Option Int
  like_count : Int
  comment_count : Int
  deriving DecidableEq

/-- media_main.py:246-255 (`fetch_user_all_posts_instaloader` loop body):
`view_count = getattr(post, "video_view_count", None) if post.is_video
else None`. -/
def mkMediaILPostEntry (p : ILPost) : MediaPostEntry :=
  { id := p.mediaid, shortcode := p.shortcode, description := p.caption,
    date_of_publication := p.date_local,
    view_count := if p.is_video then p.video_view_count else none,
    like_count := p.likes, comment_count := p.comments }

/-- accounts_main.py:210-219 (`fetch_user_info_instaloader` loop body;
same in main.py:206-213): `view_count = getattr(post,
"video_view_count", None)` with no video-type guard. -/
def mkAccountsILPostEntry (p : ILPost) : AccountsPostEntry :=
  { description := p.caption, date_of_publication := p.date_local,
    view_count := p.video_view_count,
    like_count := p.likes, comment_count := p.comments }

/-- media_main.py:136-148 (`fetch_user_all_posts_instagrapi` loop body):
`view_count = getattr(m, "video_view_count", None) if m.media_type == 2
else None`. -/
def mkMediaIGPostEntry (m : IGMedia) : MediaPostEntry :=
  { id := m.pk, shortcode := m.code, description := some m.caption_text,
    date_of_publication := m.taken_at,
    view_count := if m.media_type = 2 then m.video_view_count else none,
    like_count := m.like_count, comment_count := m.comment_count }

/-- accounts_main.py:122-136 (`fetch_user_info_instagrapi` loop body;
same guard in main.py:117-131): `view_count = None; if m.media_type ==
2: view_count = getattr(m, "video_view_count", None)`. -/
def mkAccountsIGPostEntry (m : IGMedia) : AccountsPostEntry :=
  { description := some m.caption_text, date_of_publication := m.taken_at,
    view_count := if m.media_type = 2 then m.video_view_count else none,
    like_count := m.like_count, comment_count := m.comment_count }

/-- The `count = 0; for post in profile.get_posts(): if count >= limit:
break; ...append(entry); count += 1` loop shared by both instaloader
fetchers (accounts_main.py:206-221, media_main.py:241-257). -/
def postsLoop {π E : Type} (limit : Nat) (mk : π → E) : List π → Nat → List E
  | [], _ => []
  | p :: ps, count =>
    if count ≥ limit then []
    else mk p :: postsLoop limit mk ps (count + 1)

/-- The user-all-posts result dict of `media_main.py`'s instaloader
fetcher (constant `mode`/`library` tags omitted). -/
structure MediaUserAllResult where
  username : String
  full_name : String
  bio : String
  profile_pic_url : String
  follower_count : Int
  following_count : Int
  posts : List MediaPostEntry
  deriving DecidableEq

/-- `fetch_user_all_posts_instaloader` (media_main.py:217-259):
`str(profile.profile_pic_url)` of an instaloader profile's plain string
URL is that string itself. -/
def fetch_user_all_posts_instaloader (profile : ILProfile) (limit : Nat) :
    MediaUserAllResult :=
  { username := profile.username, full_name := profile.full_name,
    bio := profile.biography,
    profile_pic_url := profile.profile_pic_url,
    follower_count := profile.followers, following_count := profile.followees,
    posts := postsLoop limit mkMediaILPostEntry profile.posts 0 }

/-- The per-user result dict of `accounts_main.py`'s instaloader fetcher
(constant `source_library` tag omitted). -/
structure AccountsUserResult where
  username : String
  full_name : String
  bio : String
  profile_pic_url : Option String
  follower_count : Int
  following_count : Int
  posts : List AccountsPostEntry
  deriving DecidableEq

/-- `fetch_user_info_instaloader` (accounts_main.py:182-223):
`pic_url_str = str(profile.profile_pic_url) if profile.profile_pic_url
else None` — an empty URL string is falsy and becomes `None`. -/
def fetch_user_info_instaloader (username : String) (profile : ILProfile)
    (max_posts : Nat) : AccountsUserResult :=
  { username := username, full_name := profile.full_name,
    bio := profile.biography,
    profile_pic_url :=
      if profile.profile_pic_url = "" then none else some profile.profile_pic_url,
    follower_count := profile.followers, following_count := profile.followees,
    posts := postsLoop max_posts mkAccountsILPostEntry profile.posts 0 }

theorem postsLoop_length_le {π E : Type} (limit : Nat) (mk : π → E) :
    ∀ (ps : List π) (count : Nat), (postsLoop limit mk ps count).length ≤ limit - count := by
  intro ps
  induction ps with
  | nil => intro count; simp [postsLoop]
  | cons p rest ih =>
    intro count
    by_cases h : count ≥ limit
    · simp [postsLoop, h]
    · have := ih (count + 1)
      simp only [postsLoop, h, if_false, List.length_cons]
      omega

theorem postsLoop_all_of_le {π E : Type} (limit : Nat) (mk : π → E) :
    ∀ (ps : List π) (count : Nat), ps.length + count ≤ limit →
      postsLoop limit mk ps count = ps.map mk := by
  intro ps
  induction ps with
  | nil => intro count _; simp [postsLoop]
  | cons p rest ih =>
    intro count h
    have hlt : ¬ count ≥ limit := by simp at h ⊢; omega
    have : rest.length + (count + 1) ≤ limit := by simp at h; omega
    simp [postsLoop, hlt, ih (count + 1) this]

theorem postsLoop_isPre {π E : Type} (limit : Nat) (mk : π → E) :
    ∀ (ps : List π) (count : Nat), postsLoop limit mk ps count <+: ps.map mk := by
  intro ps
  induction ps with
  | nil => intro count; simp [postsLoop]
  | cons p rest ih =>
    intro count
    by_cases h : count ≥ limit
    · simp [postsLoop, h]
    · obtain ⟨t, ht⟩ := ih (count + 1)
      exact ⟨t, by simp [postsLoop, h, ht]⟩

/-- C4: both instaloader post fetchers return at most `limit` posts — a
prefix (the most recent ones) of the mapped backend post stream, in
order — and when the target has fewer than `limit` posts they return
all of them, with no error path. -/
theorem c4_fetch_posts_limit (profile : ILProfile) (username : String)
    (limit maxPosts : Nat) :
    ((fetch_user_all_posts_instaloader profile limit).posts.length ≤ limit) ∧
    ((fetch_user_all_posts_instaloader profile limit).posts <+:
        profile.posts.map mkMediaILPostEntry) ∧
    (profile.posts.length ≤ limit →
        (fetch_user_all_posts_instaloader profile limit).posts =
          profile.posts.map mkMediaILPostEntry) ∧
    ((fetch_user_info_instaloader username profile maxPosts).posts.length ≤ maxPosts) ∧
    (profile.posts.length ≤ maxPosts →
        (fetch_user_info_instaloader username profile maxPosts).posts =
          profile.posts.map mkAccountsILPostEntry) := by
  refine ⟨?_, ?_, ?_, ?_, ?_⟩
  · simpa using postsLoop_length_le limit mkMediaILPostEntry profile.posts 0
  · exact postsLoop_isPre limit mkMediaILPostEntry profile.posts 0
  · intro h
    exact postsLoop_all_of_le limit mkMediaILPostEntry profile.posts 0 (by omega)
  · simpa using postsLoop_length_le maxPosts mkAccountsILPostEntry profile.posts 0
  · intro h
    exact postsLoop_all_of_le maxPosts mkAccountsILPostEntry profile.posts 0 (by omega)

/-- A two-post profile used to instantiate the fetch-limit theorem. -/
def demoProfile : ILProfile :=
  { username := "natgeo", full_name := "Nat Geo", biography := "bio",
    profile_pic_url := "https://cdn.example/p.jpg", followers := 100, followees := 3,
    posts :=
      [ { mediaid := 11, shortcode := "aa", caption := some "one", date_local := none,
          is_video := false, video_view_count := none, likes := 5, comments := 1 },
        { mediaid := 12, shortcode := "bb", caption := none, date_local := some "2024-01-01",
          is_video := true, video_view_count := some 77, likes := 6, comments := 2 } ] }

/-- C4 witness: a profile with two posts and limit five returns exactly
its two posts, in order. -/
theorem c4_fetch_posts_limit_witness :
    demoProfile.posts.length ≤ 5 ∧
    (fetch_user_all_posts_instaloader demoProfile 5).posts =
      demoProfile.posts.map mkMediaILPostEntry := by
  refine ⟨by decide, ?_⟩
  exact (c4_fetch_posts_limit demoProfile "natgeo" 5 5).2.2.1 (by decide)

/-- A non-video post for which the backend's `video_view_count`
attribute nonetheless yields a numeric value. -/
def nonVideoPostWithViews : ILPost :=
  { mediaid := 1, shortcode := "x", caption := none, date_local := none,
    is_video := false, video_view_count := some 7, likes := 0, comments := 0 }

/-- C5: the claim fails on the instaloader path of accounts_main.py
(and main.py): the entry builder copies the backend's
`video_view_count` attribute with no video-type guard, so a non-video
post whose attribute yields a number gets a populated `view_count`. -/
theorem c5_counterexample :
    nonVideoPostWithViews.is_video = false ∧
    (mkAccountsILPostEntry nonVideoPostWithViews).view_count = some 7 :=
  ⟨rfl, rfl⟩

/-- C5 (amended): in media_main.py's two post builders and the
instagrapi builders of accounts_main.py/main.py, `view_count` is null
for a non-video post and is the backend-supplied optional count for a
video post (never a fabricated zero); the instaloader builder of
accounts_main.py/main.py instead copies the backend's
`video_view_count` attribute unconditionally, whatever the post type. -/
theorem c5_view_count_guards (p : ILPost) (m : IGMedia) :
    (p.is_video = false → (mkMediaILPostEntry p).view_count = none) ∧
    (p.is_video = true → (mkMediaILPostEntry p).view_count = p.video_view_count) ∧
    (m.media_type ≠ 2 → (mkMediaIGPostEntry m).view_count = none) ∧
    (m.media_type = 2 → (mkMediaIGPostEntry m).view_count = m.video_view_count) ∧
    (m.media_type ≠ 2 → (mkAccountsIGPostEntry m).view_count = none) ∧
    (m.media_type = 2 → (mkAccountsIGPostEntry m).view_count = m.video_view_count) ∧
    ((mkAccountsILPostEntry p).view_count = p.video_view_count) := by
  refine ⟨?_, ?_, ?_, ?_, ?_, ?_, rfl⟩
  · intro h; simp [mkMediaILPostEntry, h]
  · intro h; simp [mkMediaILPostEntry, h]
  · intro h; simp [mkMediaIGPostEntry, h]
  · intro h; simp [mkMediaIGPostEntry, h]
  · intro h; simp [mkAccountsIGPostEntry, h]
  · intro h; simp [mkAccountsIGPostEntry, h]

/-- C5 witness: a non-video post through media_main.py's instaloader
builder yields a null view count. -/
theorem c5_view_count_guards_witness :
    nonVideoPostWithViews.is_video = false ∧
    (mkMediaILPostEntry nonVideoPostWithViews).view_count = none := by
  refine ⟨rfl, ?_⟩
  exact (c5_view_count_guards nonVideoPostWithViews
    { pk := 0, code := "", caption_text := "", taken_at := none, media_type := 1,
      video_view_count := none, like_count := 0, comment_count := 0 }).1 rfl

/-! ## Avatar URL normalization at the adapter boundary

pydantic gives instagrapi's `profile_pic_url` as a rich `HttpUrl`
object (or `None`), not a plain string.  A value reaching the result
dict is modeled by `PyVal`: null, a plain string, or a rich URL object
carrying its text. -/

inductive PyVal where
  | vNone
  | vStr (s : String)
  | vUrl (s : String)
  deriving DecidableEq

/-- An instagrapi user object as the fetchers read it:
`profile_pic_url = some u` is an `HttpUrl` object whose text is `u`. -/
structure IGUser where
  pk : Nat
  username : String
  full_name : String
  biography : String
  profile_pic_url : Option String
  follower_count : Int
  following_count : Int
  deriving DecidableEq

/-- The `user_info` sub-dict built by the instagrapi profile fetchers. -/
structure UserInfoRecord where
  full_name : String
  bio : String
  profile_pic_url : PyVal
  follower_count : Int
  following_count : Int
  deriving DecidableEq

/-- main.py:105-111 (`fetch_user_info_instagrapi`): the raw
`user_data.profile_pic_url` is stored unconverted, so a rich `HttpUrl`
object crosses the adapter boundary as-is. -/
def mainPy_user_info (u : IGUser) : UserInfoRecord :=
  { full_name := u.full_name, bio := u.biography,
    profile_pic_url :=
      match u.profile_pic_url with
      | none => .vNone
      | some s => .vUrl s,
    follower_count := u.follower_count, following_count := u.following_count }

/-- accounts_main.py:109-117 (`fetch_user_info_instagrapi`):
`pic_url_str = str(user_data.profile_pic_url) if user_data.profile_pic_url
else None` coerces the rich URL to its string form before it is stored
(media_main.py:129 does the same with an unconditional `str(...)`). -/
def accounts_user_info (u : IGUser) : UserInfoRecord :=
  { full_name := u.full_name, bio := u.biography,
    profile_pic_url :=
      match u.profile_pic_url with
      | none => .vNone
      | some s => .vStr s,
    follower_count := u.follower_count, following_count := u.following_count }

/-- A user whose `profile_pic_url` is a rich `HttpUrl` object. -/
def demoIGUser : IGUser :=
  { pk := 1, username := "acct", full_name := "A", biography := "",
    profile_pic_url := some "https://cdn.example/a.jpg",
    follower_count := 10, following_count := 5 }

/-- C7: at a user whose backend `profile_pic_url` is a rich `HttpUrl`,
main.py's adapter stores the rich object itself in the outgoing record
— neither a string nor null — while the accounts_main.py/media_main.py
adapters always emit a string or null.  (main.py's own purpose of
dumping the record with `json.dump` fails on the rich value, which
accounts_main.py's header documents as the bug its `str(...)` fixes.) -/
theorem c7_rich_url_escapes_adapter :
    ((mainPy_user_info demoIGUser).profile_pic_url = PyVal.vUrl "https://cdn.example/a.jpg") ∧
    (∀ s, (mainPy_user_info demoIGUser).profile_pic_url ≠ PyVal.vStr s) ∧
    ((mainPy_user_info demoIGUser).profile_pic_url ≠ PyVal.vNone) ∧
    (∀ u : IGUser, (accounts_user_info u).profile_pic_url = PyVal.vNone ∨
        ∃ s, (accounts_user_info u).profile_pic_url = PyVal.vStr s) := by
  refine ⟨rfl, ?_, ?_, ?_⟩
  · intro s h
    simp [mainPy_user_info, demoIGUser] at h
  · intro h
    simp [mainPy_user_info, demoIGUser] at h
  · intro u
    cases h : u.profile_pic_url with
    | none => exact Or.inl (by simp [accounts_user_info, h])
    | some s => exact Or.inr ⟨s, by simp [accounts_user_info, h]⟩

/-! ## media_main CSV row classification (media_main.py:326-365)

`main` reads each CSV row; `link = row.get("link") or ""`.  A link
containing `"/p/"` yields a single-post request whose shortcode is
`link.split("/p/")[1].split("/")[0]`; otherwise the first truthy of
`row.get("app_unique_id")`, `row.get("name")` becomes a user-all-posts
request, and a row with neither is skipped with a printed warning.

Python's `s.split(sep)` for a non-empty separator cuts at every
occurrence, scanning left to right; `pySplitGo` walks the character
list with a skip counter for the separator tail just consumed. -/

/-- Is `pre` a prefix of `l`? -/
def listIsPre : List Char → List Char → Bool
  | [], _ => true
  | _ :: _, [] => false
  | p :: ps, c :: cs => p == c && listIsPre ps cs

/-- Does `sub` occur contiguously in `l`?  Models Python's `sub in s`. -/
def listHasSub (sub : List Char) : List Char → Bool
  | [] => listIsPre sub []
  | c :: cs => listIsPre sub (c :: cs) || listHasSub sub cs

/-- Python `s.split(sep)` for the non-empty separator `s0 :: sep`, as a
single left-to-right scan: `skip` counts separator-tail characters
still to drop after a cut, `cur` accumulates the current chunk
(reversed). -/
def pySplitGo (s0 : Char) (sep : List Char) : List Char → Nat → List Char → List (List Char)
  | [], _, cur => [cur.reverse]
  | _ :: rest, Nat.succ k, cur => pySplitGo s0 sep rest k cur
  | c :: rest, 0, cur =>
    if listIsPre (s0 :: sep) (c :: rest) then
      cur.reverse :: pySplitGo s0 sep rest sep.length []
    else
      pySplitGo s0 sep rest 0 (c :: cur)

/-- Python `s.split(sep)` (the scripts only call it with non-empty
separators; Python raises on an empty one). -/
def pySplit (sep l : List Char) : List (List Char) :=
  match sep with
  | [] => [l]
  | s0 :: srest => pySplitGo s0 srest l 0 []

/-- The `"/p/"` permalink delimiter. -/
def pSep : List Char := ['/', 'p', '/']

/-- The `"/"` delimiter used on the remainder. -/
def slashSep : List Char := ['/']

/-- Python `row.get("app_unique_id") or row.get("name") or ""`:
first truthy (non-None, non-empty) value, else the empty string. -/
def firstTruthy (x y : Option String) : String :=
  match x with
  | some a => if a = "" then (match y with | some n => n | none => "") else a
  | none => match y with | some n => n | none => ""

/-- One CSV row of `data/media_data/items_rows.csv`, restricted to the
columns the classifier reads. -/
structure MediaRow where
  link : Option String
  app_unique_id : Option String
  name : Option String
  deriving DecidableEq

/-- A parsed media request. -/
inductive MediaReq where
  | singlePost (shortcode : String) (originalLink : String)
  | userAll (userIdOrName : String)
  deriving DecidableEq

/-- Outcome of classifying one row: appended to `media_requests`,
dropped silently (the unreachable `else: pass` fallback), or dropped
with the printed warning. -/
inductive RowOutcome where
  | enqueue (r : MediaReq)
  | dropSilent
  | dropWarn
  deriving DecidableEq

/-- The per-row classification of media_main.py:331-365. -/
def classifyRow (row : MediaRow) : RowOutcome :=
  let link := row.link.getD ""
  if listHasSub pSep link.data then
    let parts := pySplit pSep link.data
    if 1 < parts.length then
      let remainder := parts.get! 1
      let short := (pySplit slashSep remainder).get! 0
      .enqueue (.singlePost (String.mk short) link)
    else .dropSilent
  else
    let user := firstTruthy row.app_unique_id row.name
    if user = "" then .dropWarn else .enqueue (.userAll user)

theorem pySplitGo_ne_nil (s0 : Char) (sep : List Char) :
    ∀ (l : List Char) (skip : Nat) (cur : List Char),
      pySplitGo s0 sep l skip cur ≠ [] := by
  intro l
  induction l with
  | nil => intro skip cur; simp [pySplitGo]
  | cons c rest ih =>
    intro skip cur
    cases skip with
    | zero =>
        by_cases h : listIsPre (s0 :: sep) (c :: rest)
        · simp [pySplitGo, h]
        · simpa [pySplitGo, h] using ih 0 (c :: cur)
    | succ k => simpa [pySplitGo] using ih k cur

theorem pySplitGo_length_of_sub (s0 : Char) (sep : List Char) :
    ∀ (l : List Char) (cur : List Char),
      listHasSub (s0 :: sep) l = true →
      1 < (pySplitGo s0 sep l 0 cur).length := by
  intro l
  induction l with
  | nil =>
    intro cur h
    simp [listHasSub, listIsPre] at h
  | cons c rest ih =>
    intro cur h
    by_cases hp : listIsPre (s0 :: sep) (c :: rest)
    · have h1 := pySplitGo_ne_nil s0 sep rest sep.length []
      have h2 : 0 < (pySplitGo s0 sep rest sep.length []).length :=
        List.length_pos.mpr h1
      simp only [pySplitGo, hp, if_true, List.length_cons]
      omega
    · have hr : listHasSub (s0 :: sep) rest = true := by
        simp [listHasSub, hp] at h
        exact h
      simpa [pySplitGo, hp] using ih (c :: cur) hr

/-- C8: the scenario row with permalink
`https://example.com/p/AbC123xy/` is classified single-post with
shortcode `AbC123xy` (the substring between `"/p/"` and the next `"/"`),
and a row without the permalink pattern is classified
profile-with-posts using the first available identifier field
(`app_unique_id` before `name`). -/
theorem c8_permalink_classification :
    (classifyRow { link := some "https://example.com/p/AbC123xy/",
                   app_unique_id := none, name := none } =
        .enqueue (.singlePost "AbC123xy" "https://example.com/p/AbC123xy/")) ∧
    (∀ row : MediaRow, listHasSub pSep ((row.link.getD "").data) = false →
        ∀ a, row.app_unique_id = some a → a ≠ "" →
          classifyRow row = .enqueue (.userAll a)) ∧
    (∀ row : MediaRow, listHasSub pSep ((row.link.getD "").data) = false →
        (row.app_unique_id = none ∨ row.app_unique_id = some "") →
        ∀ n, row.name = some n → n ≠ "" →
          classifyRow row = .enqueue (.userAll n)) := by
  refine ⟨by decide, ?_, ?_⟩
  · intro row hsub a ha hne
    simp [classifyRow, hsub, firstTruthy, ha, hne]
  · intro row hsub happ n hn hne
    rcases happ with h | h <;>
      simp [classifyRow, hsub, firstTruthy, h, hn, hne]

/-- C8 witness: a row with identifier `natgeo` and no permalink is
classified profile-with-posts with target `natgeo`. -/
theorem c8_permalink_classification_witness :
    listHasSub pSep (((({ link := none, app_unique_id := some "natgeo", name := none }
        : MediaRow).link.getD "")).data) = false ∧
    classifyRow { link := none, app_unique_id := some "natgeo", name := none } =
      .enqueue (.userAll "natgeo") := by
  refine ⟨by decide, ?_⟩
  exact (c8_permalink_classification).2.1
    { link := none, app_unique_id := some "natgeo", name := none }
    (by decide) "natgeo" rfl (by decide)

/-- C9: any row whose link contains `"/p/"` is enqueued as a
single-post request — never dropped and never warned about — even when
the delimiter is followed immediately by `/`, `?`, or the end of the
string, in which case the extracted shortcode is the empty string or
carries the query string. -/
theorem c9_degenerate_permalinks_enqueued :
    (∀ row : MediaRow, listHasSub pSep ((row.link.getD "").data) = true →
        ∃ sc, classifyRow row = .enqueue (.singlePost sc (row.link.getD ""))) ∧
    (classifyRow { link := some "https://www.instagram.com/p/",
                   app_unique_id := none, name := none } =
        .enqueue (.singlePost "" "https://www.instagram.com/p/")) ∧
    (classifyRow { link := some "https://x.com/p//more",
                   app_unique_id := none, name := none } =
        .enqueue (.singlePost "" "https://x.com/p//more")) ∧
    (classifyRow { link := some "https://www.instagram.com/p/?some=stuff",
                   app_unique_id := some "natgeo", name := none } =
        .enqueue (.singlePost "?some=stuff" "https://www.instagram.com/p/?some=stuff")) := by
  refine ⟨?_, by decide, by decide, by decide⟩
  intro row hsub
  have hlen : 1 < (pySplit pSep ((row.link.getD "").data)).length := by
    simpa [pySplit, pSep] using
      pySplitGo_length_of_sub '/' ['p', '/'] ((row.link.getD "").data) [] (by
        simpa [pSep] using hsub)
  refine ⟨String.mk ((pySplit slashSep ((pySplit pSep ((row.link.getD "").data)).get! 1)).get! 0),
    ?_⟩
  simp [classifyRow, hsub, hlen]

/-- A row whose link ends in the bare `"/p/"` delimiter. -/
def barePermalinkRow : MediaRow :=
  { link := some "https://e.com/p/", app_unique_id := none, name := none }

/-- C9 witness: a further link with the bare-`/p/` tail is enqueued as
a single-post request. -/
theorem c9_degenerate_permalinks_enqueued_witness :
    listHasSub pSep ((barePermalinkRow.link.getD "").data) = true ∧
    ∃ sc, classifyRow barePermalinkRow = .enqueue (.singlePost sc "https://e.com/p/") := by
  refine ⟨by decide, ?_⟩
  have h := (c9_degenerate_permalinks_enqueued).1 barePermalinkRow (by decide)
  simpa [barePermalinkRow] using h

/-! ## instagrapi target resolution (media_main.py:117-122)

`fetch_user_all_posts_instagrapi` distinguishes a numeric id from a
username with `if username_or_id.isdigit(): user_id =
int(username_or_id) else: user_id = cl.user_id_from_username(...)`.
Python's `isdigit()` is true exactly for a non-empty string of digit
characters (decimal digits, for the ASCII inputs at hand). -/

/-- Python `s.isdigit()` (over ASCII decimal digits). -/
def pyIsDigit (s : String) : Bool :=
  !s.data.isEmpty && s.data.all (fun c => c.isDigit)

/-- Python `int(s)` on a digit string. -/
def pyIntOfDigits (s : String) : Nat :=
  s.data.foldl (fun acc c => 10 * acc + (c.toNat - 48)) 0

/-- How the fetcher resolves its `username_or_id` argument. -/
inductive TargetResolution where
  | numericId (uid : Nat)
  | viaUsernameLookup (username : String)
  deriving DecidableEq

/-- The target-resolution branch of `fetch_user_all_posts_instagrapi`
(media_main.py:119-122). -/
def resolveTarget (s : String) : TargetResolution :=
  if pyIsDigit s then .numericId (pyIntOfDigits s) else .viaUsernameLookup s

/-- C10: the claim fails at the empty target string, which consists
solely of decimal digits (vacuously: it contains no non-digit
character) yet is routed to the username lookup, because Python's
`isdigit()` is false on the empty string. -/
theorem c10_counterexample :
    "".data.all (fun c => c.isDigit) = true ∧
    resolveTarget "" = .viaUsernameLookup "" :=
  ⟨rfl, rfl⟩

/-- C10 (amended): every non-empty all-digit target is unconditionally
interpreted as a numeric user id via integer conversion and never
resolved as a username, and every target that is empty or contains a
non-digit character is resolved via username lookup — so an account
whose username is a non-empty digit string cannot be fetched by name
through this path. -/
theorem c10_digit_targets_are_ids (s : String) :
    (s ≠ "" → s.data.all (fun c => c.isDigit) = true →
        resolveTarget s = .numericId (pyIntOfDigits s)) ∧
    (s = "" ∨ s.data.all (fun c => c.isDigit) = false →
        resolveTarget s = .viaUsernameLookup s) := by
  constructor
  · intro hne hall
    have hdl : ¬ s.data.isEmpty := by
      cases s with
      | mk l =>
        cases l with
        | nil => exact absurd rfl hne
        | cons c cs => simp
    simp [resolveTarget, pyIsDigit, hdl, hall]
  · intro h
    rcases h with h | h
    · subst h
      decide
    · simp [resolveTarget, pyIsDigit, h]

/-- C10 witness: an all-digit target is taken as the numeric id, and a
target with a letter goes through username lookup. -/
theorem c10_digit_targets_are_ids_witness :
    resolveTarget "4042" = .numericId 4042 ∧
    resolveTarget "user7" = .viaUsernameLookup "user7" := by
  constructor
  · exact (c10_digit_targets_are_ids "4042").1 (by decide) (by decide)
  · exact (c10_digit_targets_are_ids "user7").2 (Or.inr (by decide))

end IGScrape
